import Mathlib

/-!
Shallow embedding of the sambot options-trading engine, together with proofs
about its decision pipeline.  Each definition translates one function of the
Python source (`ai-brain/...`); machine reals are modelled by `ℚ`, Python
dictionaries by structures with `Option` fields, and fallible code by
`Option`-returning functions.
-/

/-- Rational truncation toward zero, mirroring Python `int(...)` applied to a
quotient. -/
def ratTrunc (q : ℚ) : ℤ := if 0 ≤ q then ⌊q⌋ else ⌈q⌉

/-- Round half to even at integer precision, mirroring Python `round(x)`. -/
def roundHalfEven (q : ℚ) : ℤ :=
  if q - ⌊q⌋ < 1/2 then ⌊q⌋
  else if 1/2 < q - ⌊q⌋ then ⌊q⌋ + 1
  else if ⌊q⌋ % 2 = 0 then ⌊q⌋ else ⌊q⌋ + 1

/-- Python `round(x, 2)`. -/
def round2 (q : ℚ) : ℚ := (roundHalfEven (q * 100) : ℚ) / 100

/-! ### Candlestick patterns (`ai-brain/patterns/basic_patterns.py`) -/
/-- One OHLC candle (the `open` key is rendered `open_`). -/
structure Candle where
  open_ : ℚ
  high : ℚ
  low : ℚ
  close : ℚ
  deriving DecidableEq

/-- Local value `body = abs(candle['close'] - candle['open'])`. -/
def body (c : Candle) : ℚ := |c.close - c.open_|

/-- Local value `range_ = candle['high'] - candle['low']`. -/
def range_ (c : Candle) : ℚ := c.high - c.low

/-- Local value `upper_shadow = candle['high'] - max(open, close)`. -/
def upper_shadow (c : Candle) : ℚ := c.high - max c.open_ c.close

/-- Local value `lower_shadow = min(open, close) - candle['low']`. -/
def lower_shadow (c : Candle) : ℚ := min c.open_ c.close - c.low

/-- Embeds `is_bullish_engulfing(c1, c2)`. -/
def is_bullish_engulfing (c1 c2 : Candle) : Prop :=
  c1.close < c1.open_ ∧ c2.open_ < c1.close ∧ c2.close > c1.open_ ∧ c2.close > c2.open_

/-- Embeds `is_bearish_engulfing(c1, c2)`. -/
def is_bearish_engulfing (c1 c2 : Candle) : Prop :=
  c1.close > c1.open_ ∧ c2.open_ > c1.close ∧ c2.close < c1.open_ ∧ c2.close < c2.open_

/-- Embeds `is_doji(candle, threshold=0.1)`. -/
def is_doji (c : Candle) (threshold : ℚ) : Prop :=
  range_ c > 0 ∧ body c / range_ c < threshold

/-- Embeds `is_hammer(candle, shadow_multiplier=2)`. -/
def is_hammer (c : Candle) (shadow_multiplier : ℚ) : Prop :=
  if body c = 0 then False
  else lower_shadow c > shadow_multiplier * body c ∧ upper_shadow c < body c ∧ body c > 0

/-- Embeds `is_shooting_star(candle, shadow_multiplier=2)`. -/
def is_shooting_star (c : Candle) (shadow_multiplier : ℚ) : Prop :=
  if body c = 0 then False
  else upper_shadow c > shadow_multiplier * body c ∧ lower_shadow c < body c ∧ body c > 0

/-- Embeds `is_marubozu(candle, threshold=0.1)`; the Python function returns a
pair `(is_marubozu, direction)`. -/
def is_marubozu (c : Candle) (threshold : ℚ) : Prop × ℤ :=
  if body c = 0 then (False, 0)
  else (upper_shadow c / body c ≤ threshold ∧ lower_shadow c / body c ≤ threshold,
        if c.close > c.open_ then 1 else -1)

/-- Embeds `is_bullish_harami(c1, c2)`. -/
def is_bullish_harami (c1 c2 : Candle) : Prop :=
  c1.close < c1.open_ ∧ c2.close > c2.open_ ∧ c2.open_ > c1.close ∧ c2.close < c1.open_ ∧
    |c2.close - c2.open_| < |c1.close - c1.open_|

/-- Embeds `is_bearish_harami(c1, c2)`. -/
def is_bearish_harami (c1 c2 : Candle) : Prop :=
  c1.close > c1.open_ ∧ c2.close < c2.open_ ∧ c2.open_ < c1.close ∧ c2.close > c1.open_ ∧
    |c2.close - c2.open_| < |c1.close - c1.open_|

/-- Uniform positive rescaling of a candle. -/
def scaleCandle (k : ℚ) (c : Candle) : Candle :=
  ⟨k * c.open_, k * c.high, k * c.low, k * c.close⟩

/-- Uniform shift of a candle. -/
def shiftCandle (s : ℚ) (c : Candle) : Candle :=
  ⟨c.open_ + s, c.high + s, c.low + s, c.close + s⟩

/-! ### Decision fusion (`ai-brain/decision_fusion.py`) -/
/-- An ml or indicator input signal to `fuse_signals` (keys `signal`, `confidence`). -/
structure InSignal where
  signal : String
  confidence : ℚ
  deriving DecidableEq

/-- An llm input signal to `fuse_signals` (keys `decision`, `confidence`). -/
structure LlmSignal where
  decision : String
  confidence : ℚ
  deriving DecidableEq

/-- The per-source weight dictionary of `fuse_signals`. -/
structure FuseWeights where
  ml : ℚ
  indicator : ℚ
  llm : ℚ
  deriving DecidableEq

/-- Weights and execution threshold chosen by `fuse_signals` from the risk profile. -/
def profileWeights (risk_profile : String) : FuseWeights × ℚ :=
  if risk_profile = "conservative" then (⟨3/10, 5/10, 2/10⟩, 8/10)
  else if risk_profile = "aggressive" then (⟨5/10, 3/10, 2/10⟩, 65/100)
  else (⟨4/10, 4/10, 2/10⟩, 75/100)

/-- The weight renormalisation `fuse_signals` performs when no llm signal is
given.  The Python code reassigns `weights["ml"]` first and then divides
`weights["indicator"]` by a sum that already contains the new ml weight. -/
def normalizeWeights (w : FuseWeights) (llmPresent : Bool) : FuseWeights :=
  if llmPresent then w
  else
    let ml := w.ml / (w.ml + w.indicator)
    let indicator := w.indicator / (ml + w.indicator)
    ⟨ml, indicator, 0⟩

/-- The `signal_scores` dictionary of `fuse_signals`. -/
structure Scores where
  buyCall : ℚ
  wait : ℚ
  buyPut : ℚ
  deriving DecidableEq

/-- The dictionary update `signal_scores[decision] += amount`; Python raises
KeyError for a decision outside the three keys, modelled by `none`. -/
def addScore (s : Scores) (decision : String) (amount : ℚ) : Option Scores :=
  if decision = "BUY CALL" then some { s with buyCall := s.buyCall + amount }
  else if decision = "WAIT" then some { s with wait := s.wait + amount }
  else if decision = "BUY PUT" then some { s with buyPut := s.buyPut + amount }
  else none

/-- Computes `max(signal_scores, key=signal_scores.get)` together with its
score: Python iterates the keys in insertion order (BUY CALL, WAIT, BUY PUT)
and keeps the first maximum. -/
def argmaxScores (s : Scores) : String × ℚ :=
  let best := ("BUY CALL", s.buyCall)
  let best := if s.wait > best.2 then ("WAIT", s.wait) else best
  if s.buyPut > best.2 then ("BUY PUT", s.buyPut) else best

/-- Internal state of `fuse_signals` just before the return statement, keeping
`final_confidence` exactly (the published `confidence` field is its 2-dp
rounding). -/
structure FuseResult where
  final_signal : String
  final_confidence : ℚ
  action : String
  lots : ℕ
  deriving DecidableEq

/-- The decision dictionary returned by `fuse_signals` (the fields the claims
are about; `confidence` is rounded to two decimals as in the source). -/
structure FusedDecision where
  signal : String
  confidence : ℚ
  action : String
  lots : ℕ
  deriving DecidableEq

/-- Embeds the body of `fuse_signals` up to (and excluding) the final rounding
of the confidence. -/
def fuse_core (ml_signal indicator_signal : InSignal) (llm_signal : Option LlmSignal)
    (risk_profile : String) : Option FuseResult := do
  let p := profileWeights risk_profile
  let weights := normalizeWeights p.1 llm_signal.isSome
  let confidence_threshold := p.2
  let s0 : Scores := ⟨0, 0, 0⟩
  let s1 ← addScore s0 ml_signal.signal (weights.ml * ml_signal.confidence)
  let s2 ← addScore s1 indicator_signal.signal (weights.indicator * indicator_signal.confidence)
  let s3 ← match llm_signal with
    | some l => addScore s2 l.decision (weights.llm * l.confidence)
    | none => some s2
  let fs := argmaxScores s3
  let sources_agree : Bool := match llm_signal with
    | some l => ml_signal.signal == indicator_signal.signal && indicator_signal.signal == l.decision
    | none => ml_signal.signal == indicator_signal.signal
  let final_confidence := if sources_agree then min (fs.2 + 1/10) (98/100) else fs.2
  let action := if final_confidence ≥ confidence_threshold then "EXECUTE TRADE" else "SUGGEST TRADE"
  let action := if fs.1 = "WAIT" then "NO ACTION" else action
  let lots : ℕ := if final_confidence > 9/10 then 3 else if final_confidence > 8/10 then 2 else 1
  pure ⟨fs.1, final_confidence, action, lots⟩

/-- Embeds `fuse_signals`: the published decision, with `confidence` rounded
to two decimals as in the source. -/
def fuse_signals (ml_signal indicator_signal : InSignal) (llm_signal : Option LlmSignal)
    (risk_profile : String) : Option FusedDecision :=
  (fuse_core ml_signal indicator_signal llm_signal risk_profile).map
    fun r => ⟨r.final_signal, round2 r.final_confidence, r.action, r.lots⟩

/-- Python `str.upper()` restricted to ASCII as used for index names. -/
def pyUpper (s : String) : String := String.mk (s.data.map Char.toUpper)

/-- The `lot_sizes` table of `determine_lot_size`, looked up on the uppercased
index with default 50. -/
def lotSizeFor (index : String) : ℚ :=
  let u := pyUpper index
  if u = "NIFTY" then 50
  else if u = "BANKNIFTY" then 25
  else if u = "FINNIFTY" then 40
  else if u = "SENSEX" then 10
  else if u = "MIDCPNIFTY" then 75
  else 50

/-- Embeds `determine_lot_size`; Python raises ZeroDivisionError when
`entry == stop_loss` (the risk per lot is zero), modelled by `none`. -/
def determine_lot_size (balance risk_per_trade entry stop_loss : ℚ) (index : String) :
    Option ℤ :=
  let lot_size := lotSizeFor index
  let risk_amount := balance * risk_per_trade
  let risk_per_point := |entry - stop_loss|
  let risk_per_lot := risk_per_point * lot_size
  if risk_per_lot = 0 then none
  else
    let max_lots := ratTrunc (risk_amount / risk_per_lot)
    some (max 1 max_lots)

/-! ### Trade logging (`ai-brain/trade_tracking/trade_logger.py`) -/
/-- Direction factor `1 if signal == 'BUY CALL' else -1 if signal == 'BUY PUT' else 0`. -/
def direction (signal : String) : ℚ :=
  if signal = "BUY CALL" then 1 else if signal = "BUY PUT" then -1 else 0

/-- A stored trade record (the keys handled by `log_trade` / `update_trade`). -/
structure Trade where
  trade_id : String
  index : String
  signal : String
  entry_time : String
  entry_price : ℚ
  quantity : ℚ
  strike : ℚ
  expiry : String
  status : String
  exit_time : Option String
  exit_price : Option ℚ
  pnl : Option ℚ
  stop_loss : Option ℚ
  target : Option ℚ
  notes : Option String
  deriving DecidableEq

/-- The dictionary passed to `log_trade`: the required fields plus optionals. -/
structure TradeData where
  index : String
  signal : String
  entry_time : String
  entry_price : ℚ
  quantity : ℚ
  strike : ℚ
  expiry : String
  status : Option String
  exit_time : Option String
  exit_price : Option ℚ
  pnl : Option ℚ
  stop_loss : Option ℚ
  target : Option ℚ
  notes : Option String
  deriving DecidableEq

/-- The dictionary passed to `update_trade`; a `none` field models a key
absent from the patch. -/
structure Patch where
  index : Option String
  signal : Option String
  entry_time : Option String
  entry_price : Option ℚ
  quantity : Option ℚ
  strike : Option ℚ
  expiry : Option String
  status : Option String
  exit_time : Option String
  exit_price : Option ℚ
  pnl : Option ℚ
  stop_loss : Option ℚ
  target : Option ℚ
  notes : Option String
  deriving DecidableEq

/-- Keys present in the patch overwrite the trade's entries, mirroring
`self.trades[i].update(update_data)`. -/
def applyPatch (t : Trade) (p : Patch) : Trade :=
  { trade_id := t.trade_id
    index := p.index.getD t.index
    signal := p.signal.getD t.signal
    entry_time := p.entry_time.getD t.entry_time
    entry_price := p.entry_price.getD t.entry_price
    quantity := p.quantity.getD t.quantity
    strike := p.strike.getD t.strike
    expiry := p.expiry.getD t.expiry
    status := p.status.getD t.status
    exit_time := p.exit_time.or t.exit_time
    exit_price := p.exit_price.or t.exit_price
    pnl := p.pnl.or t.pnl
    stop_loss := p.stop_loss.or t.stop_loss
    target := p.target.or t.target
    notes := p.notes.or t.notes }

/-- The per-record body of `update_trade` once the record with the matching id
is found: apply the patch; then, if exit price and exit time were supplied and
the record is not already CLOSED, set status to CLOSED and compute pnl. -/
def updateRecord (t : Trade) (p : Patch) : Trade :=
  let t1 := applyPatch t p
  if p.exit_price.isSome ∧ p.exit_time.isSome then
    if t1.status ≠ "CLOSED" then
      { t1 with
        status := "CLOSED"
        pnl := some (direction t1.signal * (t1.exit_price.getD 0 - t1.entry_price) * t1.quantity) }
    else t1
  else t1

/-- Embeds `update_trade` over the trades list: the first record whose id
matches is updated in place; returns the new list and the success flag. -/
def update_trade (trades : List Trade) (trade_id : String) (update_data : Patch) :
    List Trade × Bool :=
  match trades with
  | [] => ([], false)
  | t :: rest =>
    if t.trade_id = trade_id then (updateRecord t update_data :: rest, true)
    else
      let r := update_trade rest trade_id update_data
      (t :: r.1, r.2)

/-- Embeds `log_trade` (the journal append; the generated id is an environment
input).  If exit data is present and no pnl was supplied, pnl is computed and
the status forced to CLOSED. -/
def log_trade (trade_id : String) (trade_data : TradeData) : Trade :=
  let trade : Trade :=
    { trade_id := trade_id
      index := trade_data.index
      signal := trade_data.signal
      entry_time := trade_data.entry_time
      entry_price := trade_data.entry_price
      quantity := trade_data.quantity
      strike := trade_data.strike
      expiry := trade_data.expiry
      status := trade_data.status.getD "OPEN"
      exit_time := trade_data.exit_time
      exit_price := trade_data.exit_price
      pnl := trade_data.pnl
      stop_loss := trade_data.stop_loss
      target := trade_data.target
      notes := trade_data.notes }
  if trade_data.exit_price.isSome ∧ trade_data.exit_time.isSome ∧ trade_data.pnl.isNone then
    { trade with
      pnl := some (direction trade_data.signal *
        (trade_data.exit_price.getD 0 - trade_data.entry_price) * trade_data.quantity)
      status := "CLOSED" }
  else trade

/-- The S5 trade data of the specification. -/
def s5Data : TradeData :=
  { index := "NIFTY", signal := "BUY CALL", entry_time := "2025-01-02 09:30:00"
    entry_price := 100, quantity := 50, strike := 22500, expiry := "2025-01-09"
    status := none, exit_time := none, exit_price := none, pnl := none
    stop_loss := none, target := none, notes := none }

/-- The S5 exit patch of the specification. -/
def s5Patch : Patch :=
  { index := none, signal := none, entry_time := none, entry_price := none
    quantity := none, strike := none, expiry := none, status := none
    exit_time := some "2025-01-02 10:45:00", exit_price := some 106, pnl := none
    stop_loss := none, target := none, notes := none }

/-! ### Option-chain analysis (`ai-brain/option_chain/analyzer.py`) -/
/-- One row of the prepared option-chain dataframe (the columns read by the
embedded metrics). -/
structure OptionRow where
  strike : ℚ
  ce_oi : ℚ
  pe_oi : ℚ
  ce_volume : ℚ
  pe_volume : ℚ
  deriving DecidableEq

/-- A prepared snapshot: dataframe rows plus the fetcher's underlying value. -/
structure Snapshot where
  rows : List OptionRow
  underlying_value : Option ℚ
  deriving DecidableEq

/-- Column sum `df['ce_oi'].sum()`. -/
def total_ce_oi (rows : List OptionRow) : ℚ := (rows.map OptionRow.ce_oi).sum

/-- Column sum `df['pe_oi'].sum()`. -/
def total_pe_oi (rows : List OptionRow) : ℚ := (rows.map OptionRow.pe_oi).sum

/-- Column sum `df['ce_volume'].sum()`. -/
def total_ce_volume (rows : List OptionRow) : ℚ := (rows.map OptionRow.ce_volume).sum

/-- Column sum `df['pe_volume'].sum()`. -/
def total_pe_volume (rows : List OptionRow) : ℚ := (rows.map OptionRow.pe_volume).sum

/-- The metrics assembled by `calculate_basic_metrics` that the claims are
about. -/
structure BasicMetrics where
  total_ce_oi : ℚ
  total_pe_oi : ℚ
  total_oi : ℚ
  pcr_oi : ℚ
  pcr_volume : ℚ
  deriving DecidableEq

/-- Embeds `calculate_basic_metrics` (returns `None` on an empty frame). -/
def calculate_basic_metrics (rows : List OptionRow) : Option BasicMetrics :=
  if rows = [] then none
  else some
    { total_ce_oi := total_ce_oi rows
      total_pe_oi := total_pe_oi rows
      total_oi := total_ce_oi rows + total_pe_oi rows
      pcr_oi :=
        if total_ce_oi rows > 0 then round2 (total_pe_oi rows / total_ce_oi rows) else 0
      pcr_volume :=
        if total_ce_volume rows > 0 then round2 (total_pe_volume rows / total_ce_volume rows)
        else 0 }

/-- The `df['strike'].unique()` call: strikes in order of first occurrence. -/
def uniqueFirst (l : List ℚ) : List ℚ :=
  l.foldl (fun acc x => if x ∈ acc then acc else acc ++ [x]) []

/-- The inner loop of `calculate_max_pain`: accumulated pain at a candidate
strike, with the final `abs`. -/
def painAt (rows : List OptionRow) (strike : ℚ) : ℚ :=
  |(rows.map fun row =>
      (if row.strike < strike then row.ce_oi * (row.strike - strike) else 0) +
      (if row.strike > strike then row.pe_oi * (strike - row.strike) else 0)).sum|

/-- The `pain_values` list of `calculate_max_pain`: (strike, pain) pairs. -/
def pain_values (rows : List OptionRow) : List (ℚ × ℚ) :=
  (uniqueFirst (rows.map OptionRow.strike)).map fun s => (s, painAt rows s)

/-- The `pain_df['pain'].idxmin()` lookup: the first pair achieving the minimal
pain. -/
def idxminFirst (l : List (ℚ × ℚ)) : Option (ℚ × ℚ) :=
  match l with
  | [] => none
  | x :: xs => some (xs.foldl (fun best p => if p.2 < best.2 then p else best) x)

/-- Embeds `calculate_max_pain`.  The underlying value of the snapshot is
never read. -/
def calculate_max_pain (snap : Snapshot) : Option ℚ :=
  if snap.rows = [] then none
  else (idxminFirst (pain_values snap.rows)).map Prod.fst

/-! ### Market psychology (`ai-brain/option_chain/psychological_analysis.py`) -/
/-- IV-skew block of the analysis dictionary: the `delta_from_atm` entries of
the OTM put and call legs. -/
structure IVSkew where
  otm_puts : List ℚ
  otm_calls : List ℚ
  deriving DecidableEq

/-- Momentum block of the analysis dictionary. -/
structure Momentum where
  oi_momentum : Option String
  ce_oi_change : Option ℚ
  pe_oi_change : Option ℚ
  deriving DecidableEq

/-- The `analysis_results` dictionary as read by the psychology analyzer. -/
structure AnalysisResults where
  pcr : Option ℚ
  max_pain : Option ℚ
  underlying_value : Option ℚ
  momentum : Option Momentum
  iv_skew : Option IVSkew
  deriving DecidableEq

/-- Python truthiness of an optional number: present and nonzero. -/
def truthyQ : Option ℚ → Bool
  | none => false
  | some v => v != 0

/-- Python truthiness of an optional string: present and non-empty. -/
def truthyS : Option String → Bool
  | none => false
  | some s => s != ""

/-- The sequential score adjustments of `get_fear_greed_index`, before the
clamp. -/
def fear_greed_raw (a : AnalysisResults) : ℤ :=
  let f1 : ℤ :=
    if truthyQ a.pcr then
      let v := a.pcr.getD 0
      if v > 3/2 then -20 else if v > 6/5 then -10
      else if v < 1/2 then 20 else if v < 4/5 then 10 else 0
    else 0
  let oi_m : Option String := match a.momentum with
    | some m => m.oi_momentum
    | none => none
  let f2 : ℤ :=
    if truthyS oi_m then
      if oi_m.getD "" = "Bullish" then 10 else if oi_m.getD "" = "Bearish" then -10 else 0
    else 0
  let f3 : ℤ :=
    if truthyQ a.max_pain ∧ truthyQ a.underlying_value then
      let percent_diff :=
        (a.max_pain.getD 0 - a.underlying_value.getD 0) / a.underlying_value.getD 0 * 100
      if percent_diff > 1 then 5 else if percent_diff < -1 then -5 else 0
    else 0
  let f4 : ℤ := match a.iv_skew with
    | none => 0
    | some sk =>
      let avg_put : Option ℚ :=
        if sk.otm_puts ≠ [] then some (sk.otm_puts.sum / sk.otm_puts.length) else none
      let avg_call : Option ℚ :=
        if sk.otm_calls ≠ [] then some (sk.otm_calls.sum / sk.otm_calls.length) else none
      if truthyQ avg_put ∧ truthyQ avg_call then
        if avg_put.getD 0 > avg_call.getD 0 * (3/2) then -10
        else if avg_call.getD 0 > avg_put.getD 0 * (3/2) then 10 else 0
      else 0
  50 + f1 + f2 + f3 + f4

/-- Result of `get_fear_greed_index` (the fields the claims are about). -/
structure FearGreed where
  score : ℤ
  interpretation : String
  deriving DecidableEq

/-- Embeds `get_fear_greed_index`: clamp the composite to [0,100] and
bucketize. -/
def get_fear_greed_index (a : AnalysisResults) : FearGreed :=
  let s := max 0 (min 100 (fear_greed_raw a))
  let sentiment :=
    if s ≥ 75 then "Extreme Greed"
    else if s ≥ 60 then "Greed"
    else if s ≥ 45 then "Neutral to Bullish"
    else if s ≥ 30 then "Neutral to Bearish"
    else if s ≥ 15 then "Fear"
    else "Extreme Fear"
  ⟨s, sentiment⟩

/-- Result of `get_contrarian_signals`: the `signal` names of the appended
entries, the score, and the overall bias. -/
structure Contrarian where
  signals : List String
  fear_greed_score : ℤ
  overall_contrarian_bias : String
  deriving DecidableEq

/-- Embeds `get_contrarian_signals`. -/
def get_contrarian_signals (a : AnalysisResults) : Contrarian :=
  let s := (get_fear_greed_index a).score
  let l1 : List String :=
    if s ≤ 15 then ["Potential Bullish Reversal"]
    else if s ≥ 85 then ["Potential Bearish Reversal"] else []
  let l2 : List String :=
    if truthyQ a.pcr ∧ a.pcr.getD 0 > 3/2 then ["Contrarian Bullish Signal"]
    else if truthyQ a.pcr ∧ a.pcr.getD 0 < 1/2 then ["Contrarian Bearish Signal"] else []
  let l3 : List String :=
    if truthyQ a.max_pain ∧ truthyQ a.underlying_value then
      let pd := (a.max_pain.getD 0 - a.underlying_value.getD 0) / a.underlying_value.getD 0 * 100
      if pd > 3 then ["Potential Upward Reversion"]
      else if pd < -3 then ["Potential Downward Reversion"] else []
    else []
  let l4 : List String := match a.momentum with
    | none => []
    | some m =>
      let ce := m.ce_oi_change.getD 0
      let pe := m.pe_oi_change.getD 0
      (if ce ≠ 0 ∧ pe ≠ 0 ∧ ce > 500000 ∧ ce > pe * 3 then ["Potential Call Exhaustion"]
       else []) ++
      (if ce ≠ 0 ∧ pe ≠ 0 ∧ pe > 500000 ∧ pe > ce * 3 then ["Potential Put Exhaustion"]
       else [])
  ⟨l1 ++ l2 ++ l3 ++ l4, s,
    if s < 30 then "Bullish" else if s > 70 then "Bearish" else "Neutral"⟩

/-- The S4 analysis input of the specification: pcr 1.6, Bearish OI momentum,
max pain 5 percent above the underlying, OTM-put IV deltas averaging 8 and
OTM-call IV deltas averaging 3. -/
def s4Analysis : AnalysisResults :=
  { pcr := some (8/5)
    max_pain := some 105
    underlying_value := some 100
    momentum := some ⟨some "Bearish", some 0, some 0⟩
    iv_skew := some ⟨[8, 8, 8], [3, 3, 3]⟩ }

/-- A concrete OPEN trade used by the C7 theorems. -/
def c7Trade : Trade :=
  { trade_id := "T7", index := "NIFTY", signal := "BUY CALL"
    entry_time := "2025-01-02 09:30:00", entry_price := 100, quantity := 50
    strike := 22500, expiry := "2025-01-09", status := "OPEN"
    exit_time := none, exit_price := none, pnl := none
    stop_loss := none, target := none, notes := none }

/-- A patch touching only the (supposedly immutable) entry price. -/
def c7Patch : Patch :=
  { index := none, signal := none, entry_time := none, entry_price := some 999
    quantity := none, strike := none, expiry := none, status := none
    exit_time := none, exit_price := none, pnl := none
    stop_loss := none, target := none, notes := none }

/-- A patch with every key absent. -/
def noPatch : Patch :=
  { index := none, signal := none, entry_time := none, entry_price := none
    quantity := none, strike := none, expiry := none, status := none
    exit_time := none, exit_price := none, pnl := none
    stop_loss := none, target := none, notes := none }

/-- A concrete CLOSED trade used by the C9 witness. -/
def c9Trade : Trade :=
  { trade_id := "T9", index := "NIFTY", signal := "BUY CALL"
    entry_time := "2025-01-02 09:30:00", entry_price := 100, quantity := 50
    strike := 22500, expiry := "2025-01-09", status := "CLOSED"
    exit_time := some "2025-01-02 10:45:00", exit_price := some 106, pnl := some 300
    stop_loss := none, target := none, notes := none }

/-- A re-close patch supplying only new exit data. -/
def c9Patch : Patch :=
  { index := none, signal := none, entry_time := none, entry_price := none
    quantity := none, strike := none, expiry := none, status := none
    exit_time := some "2025-01-02 11:00:00", exit_price := some 90, pnl := none
    stop_loss := none, target := none, notes := none }

/-- Trade data for the C4 witness: a trade logged with exit data supplied. -/
def c4Data : TradeData :=
  { index := "NIFTY", signal := "BUY PUT", entry_time := "2025-01-03 09:30:00"
    entry_price := 200, quantity := 25, strike := 22600, expiry := "2025-01-09"
    status := none, exit_time := some "2025-01-03 11:00:00", exit_price := some 190
    pnl := none, stop_loss := none, target := none, notes := none }

/-- An open trade for the C4 witness. -/
def c4Trade : Trade :=
  { trade_id := "T4", index := "NIFTY", signal := "BUY CALL"
    entry_time := "2025-01-03 09:30:00", entry_price := 100, quantity := 50
    strike := 22500, expiry := "2025-01-09", status := "OPEN"
    exit_time := none, exit_price := none, pnl := none
    stop_loss := none, target := none, notes := none }

/-- An exit patch for the C4 witness. -/
def c4Patch : Patch :=
  { index := none, signal := none, entry_time := none, entry_price := none
    quantity := none, strike := none, expiry := none, status := none
    exit_time := some "2025-01-03 12:00:00", exit_price := some 104, pnl := none
    stop_loss := none, target := none, notes := none }

/-- A concrete snapshot for the C5 witness. -/
def c5Snap : Snapshot :=
  { rows := [⟨100, 30, 5, 0, 0⟩, ⟨105, 40, 10, 0, 0⟩, ⟨110, 50, 60, 0, 0⟩,
      ⟨115, 20, 50, 0, 0⟩, ⟨120, 10, 40, 0, 0⟩]
    underlying_value := some 110 }

/-- Every leg quantity of the snapshot row is non-negative. -/
def wellFormedRows (rows : List OptionRow) : Prop :=
  ∀ r ∈ rows, 0 ≤ r.ce_oi ∧ 0 ≤ r.pe_oi ∧ 0 ≤ r.ce_volume ∧ 0 ≤ r.pe_volume

lemma body_scale (k : ℚ) (hk : 0 < k) (c : Candle) :
    body (scaleCandle k c) = k * body c := by
  simp only [body, scaleCandle, ← mul_sub, abs_mul, abs_of_pos hk]

lemma range_scale (k : ℚ) (c : Candle) :
    range_ (scaleCandle k c) = k * range_ c := by
  simp only [range_, scaleCandle, ← mul_sub]

lemma upper_shadow_scale (k : ℚ) (hk : 0 ≤ k) (c : Candle) :
    upper_shadow (scaleCandle k c) = k * upper_shadow c := by
  simp only [upper_shadow, scaleCandle, ← mul_max_of_nonneg _ _ hk, ← mul_sub]

lemma lower_shadow_scale (k : ℚ) (hk : 0 ≤ k) (c : Candle) :
    lower_shadow (scaleCandle k c) = k * lower_shadow c := by
  simp only [lower_shadow, scaleCandle, ← mul_min_of_nonneg _ _ hk, ← mul_sub]

lemma body_shift (s : ℚ) (c : Candle) : body (shiftCandle s c) = body c := by
  simp [body, shiftCandle]

lemma range_shift (s : ℚ) (c : Candle) : range_ (shiftCandle s c) = range_ c := by
  simp [range_, shiftCandle]

lemma upper_shadow_shift (s : ℚ) (c : Candle) :
    upper_shadow (shiftCandle s c) = upper_shadow c := by
  simp only [upper_shadow, shiftCandle, max_add_add_right]
  ring

lemma lower_shadow_shift (s : ℚ) (c : Candle) :
    lower_shadow (shiftCandle s c) = lower_shadow c := by
  simp only [lower_shadow, shiftCandle, min_add_add_right]
  ring

lemma toUpper_NIFTY : pyUpper "NIFTY" = "NIFTY" := by decide

/-! ### Helper facts -/
lemma lotSizeFor_pos (index : String) : 0 < lotSizeFor index := by
  simp only [lotSizeFor]
  split_ifs <;> norm_num

/-! ### Pattern invariance lemmas -/
lemma is_doji_scale (k t : ℚ) (hk : 0 < k) (c : Candle) :
    is_doji (scaleCandle k c) t ↔ is_doji c t := by
  unfold is_doji
  rw [body_scale k hk c, range_scale k c, mul_div_mul_left _ _ (ne_of_gt hk)]
  constructor
  · rintro ⟨h1, h2⟩
    refine ⟨?_, h2⟩
    nlinarith
  · rintro ⟨h1, h2⟩
    exact ⟨mul_pos hk h1, h2⟩

lemma is_doji_shift (s t : ℚ) (c : Candle) :
    is_doji (shiftCandle s c) t ↔ is_doji c t := by
  unfold is_doji
  rw [body_shift s c, range_shift s c]

lemma is_hammer_scale (k m : ℚ) (hk : 0 < k) (c : Candle) :
    is_hammer (scaleCandle k c) m ↔ is_hammer c m := by
  unfold is_hammer
  rw [body_scale k hk c, lower_shadow_scale k hk.le c, upper_shadow_scale k hk.le c]
  rcases eq_or_ne (body c) 0 with h | h
  · simp [h]
  · rw [if_neg (by simp [hk.ne', h]), if_neg h]
    have e1 : m * (k * body c) = k * (m * body c) := by ring
    simp only [gt_iff_lt, e1, mul_lt_mul_left hk, mul_pos_iff_of_pos_left hk]

lemma is_hammer_shift (s m : ℚ) (c : Candle) :
    is_hammer (shiftCandle s c) m ↔ is_hammer c m := by
  unfold is_hammer
  rw [body_shift s c, lower_shadow_shift s c, upper_shadow_shift s c]

lemma is_shooting_star_scale (k m : ℚ) (hk : 0 < k) (c : Candle) :
    is_shooting_star (scaleCandle k c) m ↔ is_shooting_star c m := by
  unfold is_shooting_star
  rw [body_scale k hk c, lower_shadow_scale k hk.le c, upper_shadow_scale k hk.le c]
  rcases eq_or_ne (body c) 0 with h | h
  · simp [h]
  · rw [if_neg (by simp [hk.ne', h]), if_neg h]
    have e1 : m * (k * body c) = k * (m * body c) := by ring
    simp only [gt_iff_lt, e1, mul_lt_mul_left hk, mul_pos_iff_of_pos_left hk]

lemma is_shooting_star_shift (s m : ℚ) (c : Candle) :
    is_shooting_star (shiftCandle s c) m ↔ is_shooting_star c m := by
  unfold is_shooting_star
  rw [body_shift s c, lower_shadow_shift s c, upper_shadow_shift s c]

lemma is_marubozu_scale (k t : ℚ) (hk : 0 < k) (c : Candle) :
    (is_marubozu (scaleCandle k c) t).1 ↔ (is_marubozu c t).1 := by
  unfold is_marubozu
  rw [body_scale k hk c, lower_shadow_scale k hk.le c, upper_shadow_scale k hk.le c]
  rcases eq_or_ne (body c) 0 with h | h
  · simp [h]
  · rw [if_neg (by simp [hk.ne', h]), if_neg h]
    rw [mul_div_mul_left _ _ (ne_of_gt hk), mul_div_mul_left _ _ (ne_of_gt hk)]

lemma is_marubozu_shift (s t : ℚ) (c : Candle) :
    (is_marubozu (shiftCandle s c) t).1 ↔ (is_marubozu c t).1 := by
  unfold is_marubozu
  rw [body_shift s c, lower_shadow_shift s c, upper_shadow_shift s c]
  rcases eq_or_ne (body c) 0 with h | h
  · simp [h]
  · rw [if_neg h, if_neg h]

lemma is_bullish_engulfing_scale (k : ℚ) (hk : 0 < k) (c1 c2 : Candle) :
    is_bullish_engulfing (scaleCandle k c1) (scaleCandle k c2) ↔ is_bullish_engulfing c1 c2 := by
  simp only [is_bullish_engulfing, scaleCandle, gt_iff_lt, mul_lt_mul_left hk]

lemma is_bullish_engulfing_shift (s : ℚ) (c1 c2 : Candle) :
    is_bullish_engulfing (shiftCandle s c1) (shiftCandle s c2) ↔ is_bullish_engulfing c1 c2 := by
  simp only [is_bullish_engulfing, shiftCandle, gt_iff_lt, add_lt_add_iff_right]

lemma is_bearish_engulfing_scale (k : ℚ) (hk : 0 < k) (c1 c2 : Candle) :
    is_bearish_engulfing (scaleCandle k c1) (scaleCandle k c2) ↔ is_bearish_engulfing c1 c2 := by
  simp only [is_bearish_engulfing, scaleCandle, gt_iff_lt, mul_lt_mul_left hk]

lemma is_bearish_engulfing_shift (s : ℚ) (c1 c2 : Candle) :
    is_bearish_engulfing (shiftCandle s c1) (shiftCandle s c2) ↔ is_bearish_engulfing c1 c2 := by
  simp only [is_bearish_engulfing, shiftCandle, gt_iff_lt, add_lt_add_iff_right]

lemma is_bullish_harami_scale (k : ℚ) (hk : 0 < k) (c1 c2 : Candle) :
    is_bullish_harami (scaleCandle k c1) (scaleCandle k c2) ↔ is_bullish_harami c1 c2 := by
  simp only [is_bullish_harami, scaleCandle, gt_iff_lt, mul_lt_mul_left hk,
    ← mul_sub, abs_mul, abs_of_pos hk]

lemma is_bullish_harami_shift (s : ℚ) (c1 c2 : Candle) :
    is_bullish_harami (shiftCandle s c1) (shiftCandle s c2) ↔ is_bullish_harami c1 c2 := by
  simp only [is_bullish_harami, shiftCandle, gt_iff_lt, add_lt_add_iff_right,
    add_sub_add_right_eq_sub]

lemma is_bearish_harami_scale (k : ℚ) (hk : 0 < k) (c1 c2 : Candle) :
    is_bearish_harami (scaleCandle k c1) (scaleCandle k c2) ↔ is_bearish_harami c1 c2 := by
  simp only [is_bearish_harami, scaleCandle, gt_iff_lt, mul_lt_mul_left hk,
    ← mul_sub, abs_mul, abs_of_pos hk]

lemma is_bearish_harami_shift (s : ℚ) (c1 c2 : Candle) :
    is_bearish_harami (shiftCandle s c1) (shiftCandle s c2) ↔ is_bearish_harami c1 c2 := by
  simp only [is_bearish_harami, shiftCandle, gt_iff_lt, add_lt_add_iff_right,
    add_sub_add_right_eq_sub]

/-! ### Max-pain and PCR lemmas -/
lemma foldlMin_mem (x : ℚ × ℚ) (xs : List (ℚ × ℚ)) :
    xs.foldl (fun best p => if p.2 < best.2 then p else best) x ∈ x :: xs := by
  induction xs generalizing x with
  | nil => simp
  | cons y ys ih =>
    simp only [List.foldl_cons]
    rcases List.mem_cons.mp (ih (if y.2 < x.2 then y else x)) with h1 | h1
    · rw [h1]
      by_cases hc : y.2 < x.2 <;> simp [hc]
    · exact List.mem_cons_of_mem _ (List.mem_cons_of_mem _ h1)

lemma mem_foldl_uniq (l : List ℚ) :
    ∀ (acc : List ℚ) (x : ℚ),
      x ∈ l.foldl (fun acc x => if x ∈ acc then acc else acc ++ [x]) acc →
        x ∈ acc ∨ x ∈ l := by
  induction l with
  | nil =>
    intro acc x h
    exact Or.inl h
  | cons a l ih =>
    intro acc x h
    simp only [List.foldl_cons] at h
    rcases ih _ x h with h1 | h1
    · by_cases hc : a ∈ acc
      · rw [if_pos hc] at h1
        exact Or.inl h1
      · rw [if_neg hc] at h1
        rcases List.mem_append.mp h1 with h2 | h2
        · exact Or.inl h2
        · simp only [List.mem_singleton] at h2
          exact Or.inr (h2 ▸ List.mem_cons_self a l)
    · exact Or.inr (List.mem_cons_of_mem a h1)

lemma mem_of_mem_uniqueFirst (l : List ℚ) (x : ℚ) (h : x ∈ uniqueFirst l) : x ∈ l := by
  rcases mem_foldl_uniq l [] x h with h1 | h1
  · simp at h1
  · exact h1

lemma foldl_uniq_ne_nil (l : List ℚ) :
    ∀ acc : List ℚ, acc ≠ [] →
      l.foldl (fun acc x => if x ∈ acc then acc else acc ++ [x]) acc ≠ [] := by
  induction l with
  | nil =>
    intro acc h
    simpa using h
  | cons a l ih =>
    intro acc h
    simp only [List.foldl_cons]
    apply ih
    by_cases hc : a ∈ acc <;> simp [hc, h]

lemma uniqueFirst_ne_nil (l : List ℚ) (h : l ≠ []) : uniqueFirst l ≠ [] := by
  cases l with
  | nil => exact absurd rfl h
  | cons a l =>
    unfold uniqueFirst
    simp only [List.foldl_cons]
    apply foldl_uniq_ne_nil
    simp

lemma roundHalfEven_nonneg (q : ℚ) (h : 0 ≤ q) : 0 ≤ roundHalfEven q := by
  unfold roundHalfEven
  have hf : (0:ℤ) ≤ ⌊q⌋ := Int.floor_nonneg.mpr h
  split_ifs <;> omega

lemma round2_nonneg (q : ℚ) (h : 0 ≤ q) : 0 ≤ round2 q := by
  unfold round2
  apply div_nonneg _ (by norm_num)
  exact_mod_cast roundHalfEven_nonneg (q * 100) (by positivity)

/-- C10: the lot-size calculator divides by `|entry - stop_loss| * lot_size`
without a zero guard, so `entry = stop_loss` raises ZeroDivisionError
(modelled `none`); when `entry ≠ stop_loss` it returns at least one lot. -/
theorem C10_lot_size_zero_guard (balance risk_per_trade entry stop_loss : ℚ) (index : String) :
    (entry = stop_loss →
      determine_lot_size balance risk_per_trade entry stop_loss index = none) ∧
    (entry ≠ stop_loss →
      ∃ n : ℤ, determine_lot_size balance risk_per_trade entry stop_loss index = some n ∧
        1 ≤ n) := by
  constructor
  · intro h
    subst h
    simp [determine_lot_size]
  · intro h
    have hpos : 0 < |entry - stop_loss| * lotSizeFor index :=
      mul_pos (abs_pos.mpr (sub_ne_zero.mpr h)) (lotSizeFor_pos index)
    refine ⟨max 1 (ratTrunc (balance * risk_per_trade / (|entry - stop_loss| * lotSizeFor index))),
      ?_, le_max_left _ _⟩
    simp only [determine_lot_size]
    rw [if_neg (ne_of_gt hpos)]

/-- Witness for C10 at `entry = stop_loss = 100` and at `entry 100`,
`stop 90`. -/
theorem C10_lot_size_zero_guard_witness :
    determine_lot_size 100000 (2/100) 100 100 "NIFTY" = none ∧
    ∃ n : ℤ, determine_lot_size 100000 (2/100) 100 90 "NIFTY" = some n ∧ 1 ≤ n :=
  ⟨(C10_lot_size_zero_guard 100000 (2/100) 100 100 "NIFTY").1 rfl,
   (C10_lot_size_zero_guard 100000 (2/100) 100 90 "NIFTY").2 (by norm_num)⟩

/-- C7 counterexample: `update` applies the whole patch via `dict.update`, so
a patch containing `entry_price` does overwrite the stored entry price. -/
theorem C7_counterexample :
    (updateRecord c7Trade c7Patch).entry_price = 999 ∧ c7Trade.entry_price = 100 ∧
      (999 : ℚ) ≠ 100 := by
  refine ⟨?_, rfl, by norm_num⟩
  simp [updateRecord, applyPatch, c7Trade, c7Patch]

/-- C7 (amended): `update` may mutate any field supplied in the patch; fields
whose key is absent from the patch are unchanged, except `status` and `pnl`
which the close logic may set. -/
theorem C7_update_frame (t : Trade) (p : Patch) :
    (updateRecord t p).trade_id = t.trade_id ∧
    (p.index = none → (updateRecord t p).index = t.index) ∧
    (p.signal = none → (updateRecord t p).signal = t.signal) ∧
    (p.entry_time = none → (updateRecord t p).entry_time = t.entry_time) ∧
    (p.entry_price = none → (updateRecord t p).entry_price = t.entry_price) ∧
    (p.quantity = none → (updateRecord t p).quantity = t.quantity) ∧
    (p.strike = none → (updateRecord t p).strike = t.strike) ∧
    (p.expiry = none → (updateRecord t p).expiry = t.expiry) ∧
    (p.exit_time = none → (updateRecord t p).exit_time = t.exit_time) ∧
    (p.exit_price = none → (updateRecord t p).exit_price = t.exit_price) ∧
    (p.stop_loss = none → (updateRecord t p).stop_loss = t.stop_loss) ∧
    (p.target = none → (updateRecord t p).target = t.target) ∧
    (p.notes = none → (updateRecord t p).notes = t.notes) := by
  simp only [updateRecord]
  split_ifs <;>
    refine ⟨rfl, ?_, ?_, ?_, ?_, ?_, ?_, ?_, ?_, ?_, ?_, ?_, ?_⟩ <;>
    · intro h
      simp [applyPatch, h]

/-- Witness for C7 (amended) at a concrete trade and the empty patch. -/
theorem C7_update_frame_witness :
    (updateRecord c7Trade noPatch).index = c7Trade.index ∧
    (updateRecord c7Trade noPatch).signal = c7Trade.signal ∧
    (updateRecord c7Trade noPatch).entry_time = c7Trade.entry_time ∧
    (updateRecord c7Trade noPatch).entry_price = c7Trade.entry_price ∧
    (updateRecord c7Trade noPatch).quantity = c7Trade.quantity ∧
    (updateRecord c7Trade noPatch).strike = c7Trade.strike ∧
    (updateRecord c7Trade noPatch).expiry = c7Trade.expiry ∧
    (updateRecord c7Trade noPatch).exit_time = c7Trade.exit_time ∧
    (updateRecord c7Trade noPatch).exit_price = c7Trade.exit_price ∧
    (updateRecord c7Trade noPatch).stop_loss = c7Trade.stop_loss ∧
    (updateRecord c7Trade noPatch).target = c7Trade.target ∧
    (updateRecord c7Trade noPatch).notes = c7Trade.notes := by
  have h := C7_update_frame c7Trade noPatch
  exact ⟨h.2.1 rfl, h.2.2.1 rfl, h.2.2.2.1 rfl, h.2.2.2.2.1 rfl, h.2.2.2.2.2.1 rfl,
    h.2.2.2.2.2.2.1 rfl, h.2.2.2.2.2.2.2.1 rfl, h.2.2.2.2.2.2.2.2.1 rfl,
    h.2.2.2.2.2.2.2.2.2.1 rfl, h.2.2.2.2.2.2.2.2.2.2.1 rfl,
    h.2.2.2.2.2.2.2.2.2.2.2.1 rfl, h.2.2.2.2.2.2.2.2.2.2.2.2 rfl⟩

/-- C9: updating an already-CLOSED trade with fresh exit data overwrites the
exit fields but leaves `pnl` and `status` untouched (pnl is only computed on
the first transition out of a non-CLOSED status). -/
theorem C9_reclose_preserves_pnl (t : Trade) (p : Patch) (v : ℚ) (s : String)
    (hstatus : t.status = "CLOSED") (hep : p.exit_price = some v) (het : p.exit_time = some s)
    (hpnl : p.pnl = none) (hst : p.status = none) :
    (updateRecord t p).pnl = t.pnl ∧ (updateRecord t p).status = t.status ∧
    (updateRecord t p).exit_price = some v ∧ (updateRecord t p).exit_time = some s := by
  simp [updateRecord, applyPatch, hep, het, hpnl, hst, hstatus]

/-- Witness for C9: re-closing T9 at 90 keeps pnl 300 and status CLOSED. -/
theorem C9_reclose_preserves_pnl_witness :
    (updateRecord c9Trade c9Patch).pnl = c9Trade.pnl ∧
    (updateRecord c9Trade c9Patch).status = c9Trade.status ∧
    (updateRecord c9Trade c9Patch).exit_price = some 90 ∧
    (updateRecord c9Trade c9Patch).exit_time = some "2025-01-02 11:00:00" :=
  C9_reclose_preserves_pnl c9Trade c9Patch 90 "2025-01-02 11:00:00" rfl rfl rfl rfl rfl

/-- C4: whenever `log_trade` or `update_trade` closes a record because exit
price and exit time were supplied, the stored pnl is
`direction * (exit_price - entry_price) * quantity` over the stored record,
with direction +1 for BUY CALL and -1 for BUY PUT; the S5 lifecycle yields
pnl 300 and status CLOSED. -/
theorem C4_pnl_identity (tid : String) (d : TradeData) (t : Trade) (p : Patch)
    (dep pep : ℚ) (det pet : String)
    (hd1 : d.exit_price = some dep) (hd2 : d.exit_time = some det) (hd3 : d.pnl = none)
    (hp1 : p.exit_price = some pep) (hp2 : p.exit_time = some pet) (hp3 : p.status = none)
    (ht : t.status ≠ "CLOSED") :
    direction "BUY CALL" = 1 ∧ direction "BUY PUT" = -1 ∧
    ((log_trade tid d).pnl = some (direction d.signal * (dep - d.entry_price) * d.quantity) ∧
      (log_trade tid d).status = "CLOSED") ∧
    ((updateRecord t p).pnl =
        some (direction (updateRecord t p).signal *
          (pep - (updateRecord t p).entry_price) * (updateRecord t p).quantity) ∧
      (updateRecord t p).exit_price = some pep ∧
      (updateRecord t p).status = "CLOSED") ∧
    ((updateRecord (log_trade "T1" s5Data) s5Patch).pnl = some 300 ∧
      (updateRecord (log_trade "T1" s5Data) s5Patch).status = "CLOSED") := by
  refine ⟨by simp [direction], by simp [direction], ⟨?_, ?_⟩, ⟨?_, ?_, ?_⟩, ?_, ?_⟩
  · simp [log_trade, hd1, hd2, hd3]
  · simp [log_trade, hd1, hd2, hd3]
  · have hst : (applyPatch t p).status = t.status := by simp [applyPatch, hp3]
    simp [updateRecord, applyPatch, hp1, hp2, hp3, ht]
  · simp [updateRecord, applyPatch, hp1, hp2, hp3, ht]
  · simp [updateRecord, applyPatch, hp1, hp2, hp3, ht]
  · norm_num [updateRecord, applyPatch, log_trade, s5Data, s5Patch, direction]
    simp
  · norm_num [updateRecord, applyPatch, log_trade, s5Data, s5Patch, direction]
    simp

/-- Witness for C4 at concrete trades. -/
theorem C4_pnl_identity_witness :
    direction "BUY CALL" = 1 ∧ direction "BUY PUT" = -1 ∧
    ((log_trade "T4L" c4Data).pnl =
        some (direction c4Data.signal * (190 - c4Data.entry_price) * c4Data.quantity) ∧
      (log_trade "T4L" c4Data).status = "CLOSED") ∧
    ((updateRecord c4Trade c4Patch).pnl =
        some (direction (updateRecord c4Trade c4Patch).signal *
          (104 - (updateRecord c4Trade c4Patch).entry_price) *
          (updateRecord c4Trade c4Patch).quantity) ∧
      (updateRecord c4Trade c4Patch).exit_price = some 104 ∧
      (updateRecord c4Trade c4Patch).status = "CLOSED") ∧
    ((updateRecord (log_trade "T1" s5Data) s5Patch).pnl = some 300 ∧
      (updateRecord (log_trade "T1" s5Data) s5Patch).status = "CLOSED") :=
  C4_pnl_identity "T4L" c4Data c4Trade c4Patch 190 104 "2025-01-03 11:00:00"
    "2025-01-03 12:00:00" rfl rfl rfl rfl rfl rfl (by simp [c4Trade])

/-- C1: evaluation of the S6 fusion scenario on the code.  The sequential
weight reassignment leaves the indicator weight at (4/10)/(1/2 + 4/10) = 4/9
instead of 1/2, so the boosted confidence is 29/36 (published 0.81), not the
0.85 the scenario expects; action and lots nevertheless match (EXECUTE TRADE,
2 lots). -/
theorem C1_s6_evaluation :
    normalizeWeights ⟨4/10, 4/10, 2/10⟩ false = ⟨1/2, 4/9, 0⟩ ∧
    fuse_core ⟨"BUY CALL", 7/10⟩ ⟨"BUY CALL", 8/10⟩ none "moderate"
      = some ⟨"BUY CALL", 29/36, "EXECUTE TRADE", 2⟩ ∧
    fuse_signals ⟨"BUY CALL", 7/10⟩ ⟨"BUY CALL", 8/10⟩ none "moderate"
      = some ⟨"BUY CALL", 81/100, "EXECUTE TRADE", 2⟩ ∧
    (4/9 : ℚ) ≠ 1/2 ∧ (29/36 : ℚ) ≠ 85/100 ∧ (81/100 : ℚ) ≠ 85/100 := by
  refine ⟨?_, ?_, ?_, by norm_num, by norm_num, by norm_num⟩
  · simp [normalizeWeights]
    norm_num
  · simp [fuse_core, profileWeights, normalizeWeights, addScore, argmaxScores]
    norm_num
    decide
  · simp [fuse_signals, fuse_core, profileWeights, normalizeWeights, addScore, argmaxScores,
      round2, roundHalfEven]
    norm_num [Int.fract]
    decide

/-- C2 counterexample: with unanimous BUY CALL signals of confidences 0.9,
0.5, 0.5 under the moderate profile, the fused confidence is 0.76, strictly
below max(confidences) + 0.10 capped at 0.98. -/
theorem C2_counterexample :
    (fuse_core ⟨"BUY CALL", 9/10⟩ ⟨"BUY CALL", 1/2⟩ (some ⟨"BUY CALL", 1/2⟩) "moderate").map
        FuseResult.final_confidence = some (76/100) ∧
    (fuse_signals ⟨"BUY CALL", 9/10⟩ ⟨"BUY CALL", 1/2⟩ (some ⟨"BUY CALL", 1/2⟩) "moderate").map
        FusedDecision.confidence = some (76/100) ∧
    (76/100 : ℚ) < min (max (9/10) (max (1/2) (1/2)) + 1/10) (98/100) := by
  refine ⟨?_, ?_, by norm_num⟩
  · simp [fuse_core, profileWeights, normalizeWeights, addScore, argmaxScores]
    norm_num
  · simp [fuse_signals, fuse_core, profileWeights, normalizeWeights, addScore, argmaxScores,
      round2, roundHalfEven]
    norm_num [Int.fract]

/-- C2 (amended): with all three sources present and agreeing on the same
non-WAIT kind, the internal fused confidence (before 2-dp rounding) is at
least min(component confidences) + 0.10, capped at 0.98, for every risk
profile. -/
theorem C2_unanimity_lower_bound (ml ind : InSignal) (l : LlmSignal) (rp d : String)
    (hd : d = "BUY CALL" ∨ d = "BUY PUT") (h1 : ml.signal = d) (h2 : ind.signal = d)
    (h3 : l.decision = d) :
    ∃ r, fuse_core ml ind (some l) rp = some r ∧
      min (min ml.confidence (min ind.confidence l.confidence) + 1/10) (98/100)
        ≤ r.final_confidence := by
  set m := min ml.confidence (min ind.confidence l.confidence) with hm
  have hP : profileWeights rp = (⟨3/10, 5/10, 2/10⟩, 8/10) ∨
      profileWeights rp = (⟨5/10, 3/10, 2/10⟩, 65/100) ∨
      profileWeights rp = (⟨4/10, 4/10, 2/10⟩, 75/100) := by
    simp only [profileWeights]
    split_ifs <;> simp
  rcases hd with hd | hd <;> subst hd <;>
    rcases hP with hP | hP | hP <;>
    · simp only [fuse_core, hP, h1, h2, h3, normalizeWeights, addScore, argmaxScores,
        Option.isSome_some, if_true, reduceIte, Option.some_bind, Option.bind_some]
      simp only [Option.bind_eq_bind, Option.some_bind]
      simp
      rcases le_or_lt (m + (10:ℚ)⁻¹) (98/100) with hc | hc
      · refine Or.inl ⟨?_, hc⟩
        split_ifs <;> (try dsimp only at *) <;>
          linarith [hm, min_le_left ml.confidence (min ind.confidence l.confidence),
            le_trans (min_le_right ml.confidence (min ind.confidence l.confidence))
              (min_le_left ind.confidence l.confidence),
            le_trans (min_le_right ml.confidence (min ind.confidence l.confidence))
              (min_le_right ind.confidence l.confidence)]
      · refine Or.inr ?_
        split_ifs <;> (try dsimp only at *) <;>
          linarith [hm, min_le_left ml.confidence (min ind.confidence l.confidence),
            le_trans (min_le_right ml.confidence (min ind.confidence l.confidence))
              (min_le_left ind.confidence l.confidence),
            le_trans (min_le_right ml.confidence (min ind.confidence l.confidence))
              (min_le_right ind.confidence l.confidence)]

/-- Witness for C2 (amended) at unanimous BUY CALL confidences 0.9, 0.8, 0.7
under the moderate profile. -/
theorem C2_unanimity_lower_bound_witness :
    ∃ r, fuse_core ⟨"BUY CALL", 9/10⟩ ⟨"BUY CALL", 8/10⟩ (some ⟨"BUY CALL", 7/10⟩)
        "moderate" = some r ∧
      min (min (9/10 : ℚ) (min (8/10) (7/10)) + 1/10) (98/100) ≤ r.final_confidence :=
  C2_unanimity_lower_bound ⟨"BUY CALL", 9/10⟩ ⟨"BUY CALL", 8/10⟩ ⟨"BUY CALL", 7/10⟩
    "moderate" "BUY CALL" (Or.inl rfl) rfl rfl rfl

/-- C8: every candlestick pattern predicate is invariant under a uniform
positive rescaling of (open, high, low, close) and under a uniform shift. -/
theorem C8_pattern_invariance (c c1 c2 : Candle) (k s t m : ℚ) (hk : 0 < k) :
    (is_doji (scaleCandle k c) t ↔ is_doji c t) ∧
    (is_doji (shiftCandle s c) t ↔ is_doji c t) ∧
    (is_hammer (scaleCandle k c) m ↔ is_hammer c m) ∧
    (is_hammer (shiftCandle s c) m ↔ is_hammer c m) ∧
    (is_shooting_star (scaleCandle k c) m ↔ is_shooting_star c m) ∧
    (is_shooting_star (shiftCandle s c) m ↔ is_shooting_star c m) ∧
    ((is_marubozu (scaleCandle k c) t).1 ↔ (is_marubozu c t).1) ∧
    ((is_marubozu (shiftCandle s c) t).1 ↔ (is_marubozu c t).1) ∧
    (is_bullish_engulfing (scaleCandle k c1) (scaleCandle k c2) ↔ is_bullish_engulfing c1 c2) ∧
    (is_bullish_engulfing (shiftCandle s c1) (shiftCandle s c2) ↔ is_bullish_engulfing c1 c2) ∧
    (is_bearish_engulfing (scaleCandle k c1) (scaleCandle k c2) ↔ is_bearish_engulfing c1 c2) ∧
    (is_bearish_engulfing (shiftCandle s c1) (shiftCandle s c2) ↔ is_bearish_engulfing c1 c2) ∧
    (is_bullish_harami (scaleCandle k c1) (scaleCandle k c2) ↔ is_bullish_harami c1 c2) ∧
    (is_bullish_harami (shiftCandle s c1) (shiftCandle s c2) ↔ is_bullish_harami c1 c2) ∧
    (is_bearish_harami (scaleCandle k c1) (scaleCandle k c2) ↔ is_bearish_harami c1 c2) ∧
    (is_bearish_harami (shiftCandle s c1) (shiftCandle s c2) ↔ is_bearish_harami c1 c2) :=
  ⟨is_doji_scale k t hk c, is_doji_shift s t c, is_hammer_scale k m hk c,
   is_hammer_shift s m c, is_shooting_star_scale k m hk c, is_shooting_star_shift s m c,
   is_marubozu_scale k t hk c, is_marubozu_shift s t c,
   is_bullish_engulfing_scale k hk c1 c2, is_bullish_engulfing_shift s c1 c2,
   is_bearish_engulfing_scale k hk c1 c2, is_bearish_engulfing_shift s c1 c2,
   is_bullish_harami_scale k hk c1 c2, is_bullish_harami_shift s c1 c2,
   is_bearish_harami_scale k hk c1 c2, is_bearish_harami_shift s c1 c2⟩

/-- Witness for C8: scaling the candle (100, 110, 90, 100.5) by 2 preserves
its doji flag, and shifting the pair of an engulfing setup by 7 preserves the
bullish-engulfing flag. -/
theorem C8_pattern_invariance_witness :
    (is_doji (scaleCandle 2 ⟨100, 110, 90, 201/2⟩) (1/10) ↔
      is_doji ⟨100, 110, 90, 201/2⟩ (1/10)) ∧
    (is_bullish_engulfing (shiftCandle 7 ⟨102, 103, 97, 98⟩) (shiftCandle 7 ⟨97, 105, 96, 104⟩) ↔
      is_bullish_engulfing ⟨102, 103, 97, 98⟩ ⟨97, 105, 96, 104⟩) :=
  ⟨(C8_pattern_invariance ⟨100, 110, 90, 201/2⟩ ⟨102, 103, 97, 98⟩ ⟨97, 105, 96, 104⟩
      2 7 (1/10) 2 (by norm_num)).1,
   (C8_pattern_invariance ⟨100, 110, 90, 201/2⟩ ⟨102, 103, 97, 98⟩ ⟨97, 105, 96, 104⟩
      2 7 (1/10) 2 (by norm_num)).2.2.2.2.2.2.2.2.2.1⟩

/-- C5: on a non-empty snapshot `calculate_max_pain` returns a strike from the
snapshot's strike list, and its result is independent of the underlying value
(the function never reads it). -/
theorem C5_max_pain_membership (snap : Snapshot) (h : snap.rows ≠ []) :
    (∃ s, calculate_max_pain snap = some s ∧ s ∈ snap.rows.map OptionRow.strike) ∧
    (∀ u : Option ℚ, calculate_max_pain ⟨snap.rows, u⟩ = calculate_max_pain snap) := by
  constructor
  · unfold calculate_max_pain
    rw [if_neg h]
    have h1 : snap.rows.map OptionRow.strike ≠ [] := by
      simpa using h
    have h2 : uniqueFirst (snap.rows.map OptionRow.strike) ≠ [] := uniqueFirst_ne_nil _ h1
    have h3 : pain_values snap.rows ≠ [] := by
      unfold pain_values
      simpa using h2
    obtain ⟨q, qs, hq⟩ := List.exists_cons_of_ne_nil h3
    rw [hq]
    simp only [idxminFirst, Option.map_some]
    refine ⟨_, rfl, ?_⟩
    have hm : (qs.foldl (fun best p => if p.2 < best.2 then p else best) q) ∈
        pain_values snap.rows := by
      rw [hq]
      exact foldlMin_mem q qs
    have hfst : (qs.foldl (fun best p => if p.2 < best.2 then p else best) q).1 ∈
        (pain_values snap.rows).map Prod.fst := List.mem_map_of_mem _ hm
    have hmapfst : (pain_values snap.rows).map Prod.fst =
        uniqueFirst (snap.rows.map OptionRow.strike) := by
      unfold pain_values
      rw [List.map_map]
      have hcomp : (Prod.fst ∘ fun s => (s, painAt snap.rows s)) = id := rfl
      rw [hcomp, List.map_id]
    rw [hmapfst] at hfst
    exact mem_of_mem_uniqueFirst _ _ hfst
  · intro u
    rfl

/-- Witness for C5 at a five-strike snapshot. -/
theorem C5_max_pain_membership_witness :
    (∃ s, calculate_max_pain c5Snap = some s ∧ s ∈ c5Snap.rows.map OptionRow.strike) ∧
    (∀ u : Option ℚ, calculate_max_pain ⟨c5Snap.rows, u⟩ = calculate_max_pain c5Snap) :=
  C5_max_pain_membership c5Snap (by simp [c5Snap])

/-- C6: on a non-empty well-formed snapshot the published pcr values are
non-negative; `pcr_oi` equals `round(total_pe_oi/total_ce_oi, 2)` whenever
`total_ce_oi > 0` and 0 when `total_ce_oi = 0`, and likewise `pcr_volume`
over volumes. -/
theorem C6_pcr_formula (rows : List OptionRow) (hne : rows ≠ []) (hw : wellFormedRows rows) :
    ∃ m, calculate_basic_metrics rows = some m ∧
      0 ≤ m.pcr_oi ∧
      (0 < total_ce_oi rows → m.pcr_oi = round2 (total_pe_oi rows / total_ce_oi rows)) ∧
      (total_ce_oi rows = 0 → m.pcr_oi = 0) ∧
      0 ≤ m.pcr_volume ∧
      (0 < total_ce_volume rows →
        m.pcr_volume = round2 (total_pe_volume rows / total_ce_volume rows)) ∧
      (total_ce_volume rows = 0 → m.pcr_volume = 0) := by
  have hce : 0 ≤ total_ce_oi rows :=
    List.sum_nonneg (by
      intro x hx
      obtain ⟨r, hr, rfl⟩ := List.mem_map.mp hx
      exact (hw r hr).1)
  have hpe : 0 ≤ total_pe_oi rows :=
    List.sum_nonneg (by
      intro x hx
      obtain ⟨r, hr, rfl⟩ := List.mem_map.mp hx
      exact (hw r hr).2.1)
  have hcev : 0 ≤ total_ce_volume rows :=
    List.sum_nonneg (by
      intro x hx
      obtain ⟨r, hr, rfl⟩ := List.mem_map.mp hx
      exact (hw r hr).2.2.1)
  have hpev : 0 ≤ total_pe_volume rows :=
    List.sum_nonneg (by
      intro x hx
      obtain ⟨r, hr, rfl⟩ := List.mem_map.mp hx
      exact (hw r hr).2.2.2)
  refine ⟨_, by rw [calculate_basic_metrics, if_neg hne], ?_, ?_, ?_, ?_, ?_, ?_⟩
  · dsimp only
    split_ifs with hpos
    · exact round2_nonneg _ (div_nonneg hpe hpos.le)
    · exact le_refl 0
  · intro hpos
    dsimp only
    rw [if_pos hpos]
  · intro hzero
    dsimp only
    rw [if_neg (by rw [hzero]; exact lt_irrefl 0)]
  · dsimp only
    split_ifs with hpos
    · exact round2_nonneg _ (div_nonneg hpev hpos.le)
    · exact le_refl 0
  · intro hpos
    dsimp only
    rw [if_pos hpos]
  · intro hzero
    dsimp only
    rw [if_neg (by rw [hzero]; exact lt_irrefl 0)]

/-- Witness for C6 at the S1 snapshot rows. -/
theorem C6_pcr_formula_witness :
    ∃ m, calculate_basic_metrics c5Snap.rows = some m ∧
      0 ≤ m.pcr_oi ∧
      (0 < total_ce_oi c5Snap.rows →
        m.pcr_oi = round2 (total_pe_oi c5Snap.rows / total_ce_oi c5Snap.rows)) ∧
      (total_ce_oi c5Snap.rows = 0 → m.pcr_oi = 0) ∧
      0 ≤ m.pcr_volume ∧
      (0 < total_ce_volume c5Snap.rows →
        m.pcr_volume = round2 (total_pe_volume c5Snap.rows / total_ce_volume c5Snap.rows)) ∧
      (total_ce_volume c5Snap.rows = 0 → m.pcr_volume = 0) :=
  C6_pcr_formula c5Snap.rows (by simp [c5Snap])
    (by
      intro r hr
      simp only [c5Snap, List.mem_cons, List.mem_singleton] at hr
      rcases hr with rfl | rfl | rfl | rfl | rfl | h
      · exact ⟨by norm_num, by norm_num, by norm_num, by norm_num⟩
      · exact ⟨by norm_num, by norm_num, by norm_num, by norm_num⟩
      · exact ⟨by norm_num, by norm_num, by norm_num, by norm_num⟩
      · exact ⟨by norm_num, by norm_num, by norm_num, by norm_num⟩
      · exact ⟨by norm_num, by norm_num, by norm_num, by norm_num⟩
      · exact absurd h (List.not_mem_nil r))

/-- C3 counterexample: on the S4 analysis the score is 15 but the code's
buckets give interpretation "Fear" (Extreme Fear is reserved for scores
strictly below 15), contradicting the claimed "Extreme Fear". -/
theorem C3_counterexample :
    (get_fear_greed_index s4Analysis).score = 15 ∧
    (get_fear_greed_index s4Analysis).interpretation = "Fear" ∧
    (get_fear_greed_index s4Analysis).interpretation ≠ "Extreme Fear" := by
  refine ⟨?_, ?_, ?_⟩
  · simp [get_fear_greed_index, fear_greed_raw, s4Analysis, truthyQ, truthyS]
    norm_num
  · simp [get_fear_greed_index, fear_greed_raw, s4Analysis, truthyQ, truthyS]
    norm_num
  · simp [get_fear_greed_index, fear_greed_raw, s4Analysis, truthyQ, truthyS]
    norm_num
    decide

/-- C3 (amended): on the S4 analysis `get_fear_greed_index` returns score
50 - 20 - 10 + 5 - 10 = 15 with interpretation "Fear" (the boundary score 15
falls in the Fear bucket, not Extreme Fear); the contrarian bias is Bullish
and the contrarian signals include "Potential Bullish Reversal". -/
theorem C3_s4_fear_greed :
    (get_fear_greed_index s4Analysis).score = 15 ∧
    (get_fear_greed_index s4Analysis).interpretation = "Fear" ∧
    (get_contrarian_signals s4Analysis).overall_contrarian_bias = "Bullish" ∧
    "Potential Bullish Reversal" ∈ (get_contrarian_signals s4Analysis).signals := by
  refine ⟨?_, ?_, ?_, ?_⟩
  · simp [get_fear_greed_index, fear_greed_raw, s4Analysis, truthyQ, truthyS]
    norm_num
  · simp [get_fear_greed_index, fear_greed_raw, s4Analysis, truthyQ, truthyS]
    norm_num
  · simp [get_contrarian_signals, get_fear_greed_index, fear_greed_raw, s4Analysis,
      truthyQ, truthyS]
    norm_num
  · simp [get_contrarian_signals, get_fear_greed_index, fear_greed_raw, s4Analysis,
      truthyQ, truthyS]
    norm_num
